import Mathlib

/-!
Shallow embedding of `src/gpu.rs` and `src/main.rs` of magma-compute.

GPU futures (`vulkano::sync::GpuFuture` values) are embedded as the inductive
`Token`, mirroring exactly the combinator trees the source builds
(`sync::now`, acquisition futures, `join`, `then_execute`,
`then_swapchain_present`, `then_signal_fence_and_flush`).  Device images are
identified by natural numbers.  The outcomes of the external vulkano calls
(descriptor-set construction, command-buffer allocation, recording, build,
execution, acquisition, flushing) are supplied by explicit environment
records, so the error-propagation structure of the Rust code can be stated
and proved.  `f32` quantities of the event loop (brightness, mouse
positions) are embedded as rationals; no claim depends on their rounding.
-/

namespace Magma

/-- GPU-future combinator trees as built by `gpu.rs` / `main.rs`:
`now` is `sync::now(device)`, `acq i` the acquisition future for swapchain
image `i`, `join a b` is `a.join(b)`, `exec q t` is
`t.then_execute(queue q, _)`, `present q i t` is
`t.then_swapchain_present(queue q, _, i)` and `fence t` is
`t.then_signal_fence_and_flush()`. -/
inductive Token where
  | now : Token
  | acq : Nat → Token
  | join : Token → Token → Token
  | exec : Nat → Token → Token
  | present : Nat → Nat → Token → Token
  | fence : Token → Token
deriving DecidableEq

/-- The parts of `gpu::Context` the per-frame code reads: the single queue
handle (`Context::queue`) and the swapchain dimensions
(`Context::swapchain().dimensions()`). -/
structure Context where
  queue : Nat
  width : Nat
  height : Nat
deriving DecidableEq

/-- A physical-device queue family (`vulkano` `QueueFamily`), with the
capability data the spec's selection policy talks about. -/
structure QueueFamily where
  id : Nat
  supports_graphics : Bool
  supports_compute : Bool
  queue_count : Nat
deriving DecidableEq

/-- The presentation surface, reduced to the `Surface::is_supported` query:
`some b` embeds `Ok(b)` (the query succeeded and answered `b`), `none`
embeds `Err(_)` (the query itself failed). -/
structure Surface where
  is_supported : Nat → Option Bool

/-- `gpu.rs` `QueueFamilies`: the selected graphics and compute families. -/
structure QueueFamilies where
  graphics : QueueFamily
  compute : QueueFamily
deriving DecidableEq

/-- The `ContextCreationError` variants relevant to queue-family selection. -/
inductive ContextCreationError where
  | NoGPUAvailable
  | NoQueueFamilyFound
deriving DecidableEq

/-- `QueueFamilies::find` (gpu.rs lines 196-211): the graphics family is the
first family with `supports_graphics() && surface.is_supported(qf).is_ok()`
— note the source tests `is_ok()` on the `Result<bool, _>`, i.e. only that
the query succeeded, embedded here as `Option.isSome`; the compute family
is then set to the graphics family (`let compute_family = graphics_family`). -/
def QueueFamilies.find (fams : List QueueFamily) (surf : Surface) :
    Except ContextCreationError QueueFamilies :=
  match fams.find? (fun qf => qf.supports_graphics && (surf.is_supported qf.id).isSome) with
  | some gf => .ok { graphics := gf, compute := gf }
  | none => .error .NoQueueFamilyFound

/-- `QueueFamilies::as_vec` (gpu.rs lines 213-215): the queue request passed
to `Device::new` — a single entry, the graphics family at priority `1.0`. -/
def QueueFamilies.as_vec (qf : QueueFamilies) : List (QueueFamily × ℚ) :=
  [(qf.graphics, 1)]

/-- `Device::new` returns one queue object per requested `(family, priority)`
pair; queue objects are identified by their position in the request. -/
def Device.new_queues (requested : List (QueueFamily × ℚ)) : List Nat :=
  List.range requested.length

/-- The queue taken in `Context::new` (gpu.rs line 127):
`queues.next().unwrap()`, i.e. the head of the device's queue list for the
request `queue_families.as_vec()`. -/
def Context.queue_of (qf : QueueFamilies) : Option Nat :=
  (Device.new_queues qf.as_vec).head?

/-- The `RendererDrawError` variants of gpu.rs lines 228-244, one per
`#[from]` source. -/
inductive RendererDrawError where
  | OomError
  | DrawError
  | BuildError
  | FramebufferCreationError
  | BeginRenderPassError
  | CommandBufferExecError
  | DescriptorSetError
deriving DecidableEq

/-- The `ComputeError` variants of gpu.rs lines 391-405. -/
inductive ComputeError where
  | NoImageDescriptor
  | CommandBufferExecError
  | DescriptorSetError
  | OomError
  | DispatchError
  | BuildError
deriving DecidableEq

/-- Result of a fallible Rust function that may also panic via `.unwrap()`:
`ok` is `Ok`, `err e` is `Err(e)` returned to the caller, `panicked` is a
panic (the failure never reaches the caller as a value). -/
inductive Outcome (ε α : Type) where
  | ok (a : α)
  | err (e : ε)
  | panicked
deriving DecidableEq

/-- Environment fixing the outcomes of the external vulkano operations a
single `Renderer::draw` call performs, in source order.  `acquire` is the
result of `acquire_next_image` (`some i` = image index `i`); each `Bool`
is whether the corresponding fallible call succeeds; `add_sampled_image`
is indexed by the position of the image in the supplied slice. -/
structure DrawEnv where
  acquire : Option Nat
  framebuffer_add : Bool
  framebuffer_build : Bool
  cb_alloc : Bool
  add_sampled_image : Nat → Bool
  ds_build : Bool
  begin_render_pass : Bool
  draw_cmd : Bool
  cb_build : Bool
  then_execute : Bool
  flush : Bool

/-- Environment for one `ComputeProgram::compute` call, in source order.
`has_layout0` is whether `descriptor_set_layouts().get(0)` is `Some`;
`add_image` is indexed by position in the supplied slice — its result is
discarded by the source (no `?`), so it appears here only through which
images end up in the set. -/
structure ComputeEnv where
  has_layout0 : Bool
  add_image : Nat → Bool
  ds_build : Bool
  cb_alloc : Bool
  dispatch_cmd : Bool
  cb_build : Bool
  then_execute : Bool

/-- The descriptor-set build loop of `Renderer::draw` (gpu.rs lines 345-347):
each image is added with `add_sampled_image(...)?`, so the first failing add
aborts the call with `DescriptorSetError`; on success the entries are the
supplied images in order. -/
def drawAdds (f : Nat → Bool) : Nat → List Nat → Except RendererDrawError (List Nat)
  | _, [] => .ok []
  | i, img :: rest =>
    if f i then (drawAdds f (i + 1) rest).map (fun es => img :: es)
    else .error .DescriptorSetError

/-- The descriptor-set build loop of `ComputeProgram::compute` (gpu.rs lines
447-449): `set_builder.add_image(image.clone());` — the returned `Result` is
discarded (`#![allow(unused)]`), so a failing add is silently skipped and
the loop continues. -/
def computeAdds (f : Nat → Bool) : Nat → List Nat → List Nat
  | _, [] => []
  | i, img :: rest =>
    if f i then img :: computeAdds f (i + 1) rest
    else computeAdds f (i + 1) rest

/-- Observable content of one successful `Renderer::draw` call. -/
structure DrawRecord (Pc : Type) where
  image_index : Nat
  entries : List Nat
  exec_queue : Nat
  present_queue : Nat
  wait : Token
  token : Token
  push_constants : Pc
deriving DecidableEq

/-- Observable content of one successful `ComputeProgram::compute` call. -/
structure ComputeRecord (Pc : Type) where
  entries : List Nat
  dims : Nat × Nat × Nat
  queue : Nat
  wait : Token
  token : Token
  push_constants : Pc
deriving DecidableEq

/-- `Renderer` (gpu.rs lines 246-251), reduced to the context it reads. -/
structure Renderer where
  context : Context

/-- `ComputeProgram` (gpu.rs lines 407-410), reduced to the context it
reads. -/
structure ComputeProgram where
  context : Context

/-- `Renderer::draw` (gpu.rs lines 318-382), step by step in source order:
`acquire_next_image(..).unwrap()` (a failure panics); framebuffer `add`/
`build` (`?` → `FramebufferCreationError`); command-buffer allocation
(`?` → `OomError`); the sampled-image add loop (`?` → `DescriptorSetError`);
descriptor-set `build` (`?`); recording `begin_render_pass` (`?`), `draw`
(`?`); command-buffer `build` (`?` → `BuildError`);
`image_future.join(before).then_execute(queue, cb)` (`?` →
`CommandBufferExecError`), `.then_swapchain_present(queue, _, index)`,
`.then_signal_fence_and_flush().unwrap()` (a failure panics). -/
def Renderer.draw {Pc : Type} (r : Renderer) (env : DrawEnv)
    (input_images : List Nat) (before : Token) (push_constants : Pc) :
    Outcome RendererDrawError (DrawRecord Pc) :=
  match env.acquire with
  | none => .panicked
  | some image_index =>
    if !env.framebuffer_add then .err .FramebufferCreationError
    else if !env.framebuffer_build then .err .FramebufferCreationError
    else if !env.cb_alloc then .err .OomError
    else
      match drawAdds env.add_sampled_image 0 input_images with
      | .error e => .err e
      | .ok entries =>
        if !env.ds_build then .err .DescriptorSetError
        else if !env.begin_render_pass then .err .BeginRenderPassError
        else if !env.draw_cmd then .err .DrawError
        else if !env.cb_build then .err .BuildError
        else if !env.then_execute then .err .CommandBufferExecError
        else if !env.flush then .panicked
        else
          .ok { image_index := image_index
                entries := entries
                exec_queue := r.context.queue
                present_queue := r.context.queue
                wait := .join (.acq image_index) before
                token := .fence (.present r.context.queue image_index
                  (.exec r.context.queue (.join (.acq image_index) before)))
                push_constants := push_constants }

/-- `ComputeProgram::compute` (gpu.rs lines 431-475), in source order:
`descriptor_set_layouts().get(0).ok_or(NoImageDescriptor)?`; the `add_image`
loop (results discarded); descriptor-set `build` (`?` →
`DescriptorSetError`); command-buffer allocation (`?` → `OomError`);
recording `dispatch(dims)` (`?` → `DispatchError`); command-buffer `build`
(`?` → `BuildError`); `before.then_execute(queue, commands)` (`?` →
`CommandBufferExecError`). -/
def ComputeProgram.compute {Pc : Type} (p : ComputeProgram) (env : ComputeEnv)
    (images : List Nat) (dispatch_dimensions : Nat × Nat × Nat)
    (push_constants : Pc) (before : Token) :
    Outcome ComputeError (ComputeRecord Pc) :=
  if !env.has_layout0 then .err .NoImageDescriptor
  else
    if !env.ds_build then .err .DescriptorSetError
    else if !env.cb_alloc then .err .OomError
    else if !env.dispatch_cmd then .err .DispatchError
    else if !env.cb_build then .err .BuildError
    else if !env.then_execute then .err .CommandBufferExecError
    else
      .ok { entries := computeAdds env.add_image 0 images
            dims := dispatch_dimensions
            queue := p.context.queue
            wait := before
            token := .exec p.context.queue before
            push_constants := push_constants }

/-- The environment of a frame in which every external vulkano operation of
the compute call succeeds. -/
def happyComputeEnv : ComputeEnv :=
  { has_layout0 := true, add_image := fun _ => true, ds_build := true
    cb_alloc := true, dispatch_cmd := true, cb_build := true
    then_execute := true }

/-- The environment of a frame in which every external vulkano operation of
the draw call succeeds, acquisition yielding swapchain image 0. -/
def happyDrawEnv : DrawEnv :=
  { acquire := some 0, framebuffer_add := true, framebuffer_build := true
    cb_alloc := true, add_sampled_image := fun _ => true, ds_build := true
    begin_render_pass := true, draw_cmd := true, cb_build := true
    then_execute := true, flush := true }

/-- `cs::ty::PushConstants` (main.rs lines 136-141): the compute parameter
blob; the shader's `f32` fields are embedded as rationals. -/
structure ComputePushConstants where
  init : Int
  mouse_pos : ℚ × ℚ
  mouse_delta : ℚ × ℚ
  dissipation : ℚ
deriving DecidableEq

/-- `fs::ty::PushConstants` (main.rs line 214): the render parameter blob. -/
structure RenderPushConstants where
  brightness : ℚ
deriving DecidableEq

/-- The keyboard keys the event loop distinguishes (main.rs lines 150-164). -/
inductive Key where
  | Period
  | Comma
  | Escape
  | R
  | Space
deriving DecidableEq

/-- The window events the event loop matches on (main.rs lines 144-236):
`KeyboardInput key pressed` carries `virtual_keycode` and whether
`input.state == Pressed`; `MouseInput pressed` is a left-button event;
`CursorMoved pos` carries the physical position. -/
inductive Event where
  | CloseRequested
  | KeyboardInput : Option Key → Bool → Event
  | MouseInput : Bool → Event
  | CursorMoved : ℚ × ℚ → Event
  | RedrawRequested
deriving DecidableEq

/-- The mutable state captured by the event-loop closure of `main`
(main.rs lines 123-141): the ping-pong view bindings `input_view` /
`output_view` (images identified by number), `brightness`, `mouse_pos`,
`cursor_pos`, `mouse_pressed`, the compute parameter blob, and whether
`ControlFlow::Exit` has been requested. -/
structure LoopState where
  input_view : Nat
  output_view : Nat
  brightness : ℚ
  mouse_pos : ℚ × ℚ
  cursor_pos : ℚ × ℚ
  mouse_pressed : Bool
  compute_uniforms : ComputePushConstants
  flow_exit : Bool
deriving DecidableEq

/-- The initial closure state of `main` (main.rs lines 123-141):
`input_view = views[0]`, `output_view = views[1]`, `brightness = 1.0`,
mouse state zeroed, and the parameter blob starts with `init: 1` and all
other fields zero. -/
def initialState : LoopState :=
  { input_view := 0
    output_view := 1
    brightness := 1
    mouse_pos := (0, 0)
    cursor_pos := (0, 0)
    mouse_pressed := false
    compute_uniforms :=
      { init := 1, mouse_pos := (0, 0), mouse_delta := (0, 0), dissipation := 0 }
    flow_exit := false }

/-- One frame produced by a `FrameRecord`: the images the scheduler passed as
`input`/`output` that frame plus the records of the two GPU calls. -/
structure FrameRecord where
  inputUsed : Nat
  outputUsed : Nat
  compute : ComputeRecord ComputePushConstants
  render : DrawRecord RenderPushConstants
deriving DecidableEq

/-- The `Event::RedrawRequested` arm of `main` (main.rs lines 199-235), under
the all-success environments: call `compute` on
`[input_view, output_view]` with group counts
`[size0 / 8 + 1, size1 / 8 + 1, 1]`, the current `compute_uniforms` and a
fresh `sync::now` future as `before`; call `draw` on `[output_view]` with
the compute future and `{ brightness }`; drop the render future; swap
`input_view` and `output_view`; set `init` to 0 and zero `mouse_delta`. -/
def frameStep (ctx : Context) (s : LoopState) : LoopState × Option FrameRecord :=
  match ComputeProgram.compute ⟨ctx⟩ happyComputeEnv [s.input_view, s.output_view]
      (ctx.width / 8 + 1, ctx.height / 8 + 1, 1) s.compute_uniforms Token.now with
  | .ok c =>
    match Renderer.draw ⟨ctx⟩ happyDrawEnv [s.output_view] c.token
        ⟨s.brightness⟩ with
    | .ok r =>
      ({ s with
          input_view := s.output_view
          output_view := s.input_view
          compute_uniforms :=
            { s.compute_uniforms with init := 0, mouse_delta := (0, 0) } },
       some { inputUsed := s.input_view, outputUsed := s.output_view
              compute := c, render := r })
    | _ => (s, none)
  | _ => (s, none)

/-- One iteration of the event-loop closure (main.rs lines 143-240).  The
keyboard match mirrors the Rust arm order, including guard fall-through
(a non-pressed Period/Comma falls to the wildcard) and that the `R` and
`Escape` arms ignore the key state.  Only `RedrawRequested` produces a
frame record. -/
def handleEvent (ctx : Context) (s : LoopState) :
    Event → LoopState × Option FrameRecord
  | .CloseRequested => ({ s with flow_exit := true }, none)
  | .KeyboardInput key pressed =>
    (match key, pressed with
     | some .Period, true => { s with brightness := s.brightness * (11 / 10) }
     | some .Comma, true => { s with brightness := s.brightness * (9 / 10) }
     | some .Escape, _ => { s with flow_exit := true }
     | some .R, _ =>
       { s with compute_uniforms := { s.compute_uniforms with init := 1 } }
     | some .Space, p =>
       { s with compute_uniforms :=
           { s.compute_uniforms with dissipation := if p then 1 else 0 } }
     | _, _ => s, none)
  | .MouseInput pressed =>
    (if pressed then
       { s with
           cursor_pos := if s.mouse_pressed then s.cursor_pos else s.mouse_pos
           mouse_pressed := true }
     else { s with mouse_pressed := false }, none)
  | .CursorMoved pos =>
    ({ s with
        compute_uniforms :=
          { s.compute_uniforms with
              mouse_delta :=
                if s.mouse_pressed then
                  ((pos.1 / ctx.height - s.mouse_pos.1) * 60,
                   (pos.2 / ctx.height - s.mouse_pos.2) * 60)
                else s.compute_uniforms.mouse_delta
              mouse_pos := (pos.1 / ctx.height, pos.2 / ctx.height) }
        mouse_pos := (pos.1 / ctx.height, pos.2 / ctx.height) }, none)
  | .RedrawRequested => frameStep ctx s

/-- Running the event loop over a list of delivered events, collecting the
frame records in order. -/
def runEvents (ctx : Context) (s : LoopState) :
    List Event → LoopState × List FrameRecord
  | [] => (s, [])
  | e :: rest =>
    let step := handleEvent ctx s e
    let next := runEvents ctx step.1 rest
    (next.1, step.2.toList ++ next.2)

/-- The state after one `RedrawRequested` arm: views swapped, `init`
cleared, `mouse_delta` zeroed, all else unchanged. -/
def postFrameState (s : LoopState) : LoopState :=
  { s with
      input_view := s.output_view
      output_view := s.input_view
      compute_uniforms :=
        { s.compute_uniforms with init := 0, mouse_delta := (0, 0) } }

/-- The frame record of one `RedrawRequested` arm, written out. -/
def frameRecordOf (ctx : Context) (s : LoopState) : FrameRecord :=
  { inputUsed := s.input_view
    outputUsed := s.output_view
    compute :=
      { entries := [s.input_view, s.output_view]
        dims := (ctx.width / 8 + 1, ctx.height / 8 + 1, 1)
        queue := ctx.queue
        wait := .now
        token := .exec ctx.queue .now
        push_constants := s.compute_uniforms }
    render :=
      { image_index := 0
        entries := [s.output_view]
        exec_queue := ctx.queue
        present_queue := ctx.queue
        wait := .join (.acq 0) (.exec ctx.queue .now)
        token := .fence (.present ctx.queue 0
          (.exec ctx.queue (.join (.acq 0) (.exec ctx.queue .now))))
        push_constants := ⟨s.brightness⟩ } }

theorem frameStep_eq (ctx : Context) (s : LoopState) :
    frameStep ctx s = (postFrameState s, some (frameRecordOf ctx s)) := rfl

/-! Concrete fixtures used by counterexamples and witnesses. -/

/-- A context with a single queue and a 128×128 swapchain. -/
def ctx0 : Context := { queue := 0, width := 128, height := 128 }

/-- A context with a single queue and a 130×130 swapchain. -/
def ctx130 : Context := { queue := 0, width := 130, height := 130 }

/-- Two delivered redraw requests. -/
def evs2 : List Event := [.RedrawRequested, .RedrawRequested]

/-- Three delivered redraw requests. -/
def evs3 : List Event := [.RedrawRequested, .RedrawRequested, .RedrawRequested]

/-- The spec's example family A: graphics, not compute, presentable, one
queue. -/
def famA : QueueFamily :=
  { id := 0, supports_graphics := true, supports_compute := false, queue_count := 1 }

/-- The spec's example family B: compute-only, two queues. -/
def famB : QueueFamily :=
  { id := 1, supports_graphics := false, supports_compute := true, queue_count := 2 }

/-- A surface presentable from family A (`Ok(true)`) but not from family B
(`Ok(false)`). -/
def surfAB : Surface :=
  { is_supported := fun n => if n = 0 then some true else some false }

/-- A single all-capable queue family. -/
def famG : QueueFamily :=
  { id := 0, supports_graphics := true, supports_compute := true, queue_count := 1 }

/-- A surface whose presentation-support query succeeds but answers `false`
for every family: no family can present to it. -/
def surfNoPresent : Surface := { is_supported := fun _ => some false }

/-- No reset key (`R`) event occurs in the delivered events. -/
def noReset (evs : List Event) : Prop :=
  Event.KeyboardInput (some Key.R) true ∉ evs ∧
    Event.KeyboardInput (some Key.R) false ∉ evs

/-! Helper lemmas. -/

theorem computeAdds_all_true (f : Nat → Bool) (hf : ∀ i, f i = true) :
    ∀ (n : Nat) (l : List Nat), computeAdds f n l = l := by
  intro n l
  induction l generalizing n with
  | nil => rfl
  | cons a t ih => simp [computeAdds, hf n, ih (n + 1)]

theorem drawAdds_ok (f : Nat → Bool) :
    ∀ (n : Nat) (l es : List Nat), drawAdds f n l = .ok es → es = l := by
  intro n l
  induction l generalizing n with
  | nil => intro es h; cases h; rfl
  | cons a t ih =>
    intro es h
    by_cases hfn : f n = true
    · rw [drawAdds, if_pos hfn] at h
      cases ht : drawAdds f (n + 1) t with
      | error e => rw [ht] at h; cases h
      | ok es' =>
        rw [ht] at h
        cases h
        rw [ih (n + 1) es' ht]
    · rw [drawAdds, if_neg hfn] at h
      cases h

theorem handleEvent_views (ctx : Context) (s : LoopState) (e : Event) :
    ((handleEvent ctx s e).1.input_view = s.input_view ∧
      (handleEvent ctx s e).1.output_view = s.output_view) ∨
    ((handleEvent ctx s e).1.input_view = s.output_view ∧
      (handleEvent ctx s e).1.output_view = s.input_view) := by
  cases e with
  | CloseRequested => exact Or.inl ⟨rfl, rfl⟩
  | KeyboardInput k p =>
    cases k with
    | none => exact Or.inl ⟨rfl, rfl⟩
    | some kk => cases kk <;> cases p <;> exact Or.inl ⟨rfl, rfl⟩
  | MouseInput p => cases p <;> exact Or.inl ⟨rfl, rfl⟩
  | CursorMoved pos => exact Or.inl ⟨rfl, rfl⟩
  | RedrawRequested => exact Or.inr ⟨rfl, rfl⟩

theorem handleEvent_views_of_ne (ctx : Context) (s : LoopState) (e : Event)
    (he : e ≠ Event.RedrawRequested) :
    (handleEvent ctx s e).1.input_view = s.input_view ∧
      (handleEvent ctx s e).1.output_view = s.output_view := by
  cases e with
  | CloseRequested => exact ⟨rfl, rfl⟩
  | KeyboardInput k p =>
    cases k with
    | none => exact ⟨rfl, rfl⟩
    | some kk => cases kk <;> cases p <;> exact ⟨rfl, rfl⟩
  | MouseInput p => cases p <;> exact ⟨rfl, rfl⟩
  | CursorMoved pos => exact ⟨rfl, rfl⟩
  | RedrawRequested => exact absurd rfl he

theorem init_after_nonreset (ctx : Context) (s : LoopState) (e : Event)
    (h1 : e ≠ Event.KeyboardInput (some Key.R) true)
    (h2 : e ≠ Event.KeyboardInput (some Key.R) false) :
    (handleEvent ctx s e).1.compute_uniforms.init =
      if e = Event.RedrawRequested then 0 else s.compute_uniforms.init := by
  cases e with
  | CloseRequested => rfl
  | KeyboardInput k p =>
    cases k with
    | none => cases p <;> rfl
    | some kk =>
      cases kk with
      | R => cases p with
        | true => exact absurd rfl h1
        | false => exact absurd rfl h2
      | Period => cases p <;> rfl
      | Comma => cases p <;> rfl
      | Escape => cases p <;> rfl
      | Space => cases p <;> rfl
  | MouseInput p => cases p <;> rfl
  | CursorMoved pos => rfl
  | RedrawRequested => rfl

theorem handleEvent_rec_of_ne (ctx : Context) (s : LoopState) (e : Event)
    (he : e ≠ Event.RedrawRequested) : (handleEvent ctx s e).2 = none := by
  cases e with
  | CloseRequested => rfl
  | KeyboardInput k p => rfl
  | MouseInput p => rfl
  | CursorMoved pos => rfl
  | RedrawRequested => exact absurd rfl he

theorem noReset_cons {e : Event} {evs : List Event} (h : noReset (e :: evs)) :
    (e ≠ Event.KeyboardInput (some Key.R) true ∧
      e ≠ Event.KeyboardInput (some Key.R) false) ∧ noReset evs := by
  obtain ⟨h1, h2⟩ := h
  rw [List.mem_cons, not_or] at h1 h2
  exact ⟨⟨fun hh => h1.1 hh.symm, fun hh => h2.1 hh.symm⟩, h1.2, h2.2⟩

theorem records_init_zero (ctx : Context) :
    ∀ (evs : List Event) (s : LoopState), noReset evs →
      s.compute_uniforms.init = 0 →
      ∀ r ∈ (runEvents ctx s evs).2, r.compute.push_constants.init = 0 := by
  intro evs
  induction evs with
  | nil => intro s _ _ r hr; cases hr
  | cons e rest ih =>
    intro s hnr hz r hr
    obtain ⟨⟨h1, h2⟩, hrest⟩ := noReset_cons hnr
    have hnext : (handleEvent ctx s e).1.compute_uniforms.init = 0 := by
      rw [init_after_nonreset ctx s e h1 h2]
      split
      · rfl
      · exact hz
    rw [runEvents] at hr
    rw [List.mem_append] at hr
    cases hr with
    | inl hmem =>
      by_cases hre : e = Event.RedrawRequested
      · subst hre
        have : (handleEvent ctx s Event.RedrawRequested).2 =
            some (frameRecordOf ctx s) := rfl
        rw [this] at hmem
        simp only [Option.toList_some, List.mem_singleton] at hmem
        subst hmem
        exact hz
      · rw [handleEvent_rec_of_ne ctx s e hre] at hmem
        cases hmem
    | inr hmem => exact ih (handleEvent ctx s e).1 hrest hnext r hmem

theorem getD_zero_of_all {l : List Int} (h : ∀ x ∈ l, x = 0) (i : Nat) :
    l.getD i 0 = 0 := by
  by_cases hi : i < l.length
  · rw [List.getD_eq_getElem l 0 hi]
    exact h _ (List.getElem_mem hi)
  · exact List.getD_eq_default l 0 (Nat.le_of_not_lt hi)

theorem records_init_head (ctx : Context) :
    ∀ (evs : List Event) (s : LoopState), noReset evs →
      ((runEvents ctx s evs).2.map (fun r => r.compute.push_constants.init)).getD 0
        s.compute_uniforms.init = s.compute_uniforms.init := by
  intro evs
  induction evs with
  | nil => intro s _; rfl
  | cons e rest ih =>
    intro s hnr
    obtain ⟨⟨h1, h2⟩, hrest⟩ := noReset_cons hnr
    by_cases hre : e = Event.RedrawRequested
    · subst hre; rfl
    · have hv := init_after_nonreset ctx s e h1 h2
      rw [if_neg hre] at hv
      have hrec := handleEvent_rec_of_ne ctx s e hre
      simp only [runEvents, hrec, Option.toList_none, List.nil_append]
      rw [← hv]
      exact ih (handleEvent ctx s e).1 hrest

theorem records_init_tail (ctx : Context) :
    ∀ (evs : List Event) (s : LoopState), noReset evs → ∀ i, 1 ≤ i →
      ((runEvents ctx s evs).2.map (fun r => r.compute.push_constants.init)).getD i 0
        = 0 := by
  intro evs
  induction evs with
  | nil => intro s _ i _; cases i <;> rfl
  | cons e rest ih =>
    intro s hnr i hi
    obtain ⟨⟨h1, h2⟩, hrest⟩ := noReset_cons hnr
    by_cases hre : e = Event.RedrawRequested
    · subst hre
      obtain ⟨j, rfl⟩ : ∃ j, i = j + 1 := ⟨i - 1, by omega⟩
      have hzrec : ∀ r ∈ (runEvents ctx (postFrameState s) rest).2,
          r.compute.push_constants.init = 0 :=
        records_init_zero ctx rest (postFrameState s) hrest rfl
      have hzero : ∀ x ∈ ((runEvents ctx (postFrameState s) rest).2.map
          (fun r => r.compute.push_constants.init)), x = 0 := by
        intro x hx
        rw [List.mem_map] at hx
        obtain ⟨r, hr, rfl⟩ := hx
        exact hzrec r hr
      have hstep : runEvents ctx s (Event.RedrawRequested :: rest) =
          ((runEvents ctx (postFrameState s) rest).1,
            frameRecordOf ctx s :: (runEvents ctx (postFrameState s) rest).2) := rfl
      rw [hstep, List.map_cons, List.getD_cons_succ]
      exact getD_zero_of_all hzero j
    · have hrec := handleEvent_rec_of_ne ctx s e hre
      simp only [runEvents, hrec, Option.toList_none, List.nil_append]
      exact ih (handleEvent ctx s e).1 hrest i hi

/-! Claim theorems. -/

/-- C1, counterexample: in a two-frame run the second frame's compute
dispatch does not wait on the first frame's render-completion token — its
wait dependency is a fresh `sync::now` token, while the first frame's render
token is a fence/present chain, and the two differ. -/
theorem C1_counterexample :
    ((runEvents ctx0 initialState evs2).2.map (fun r => r.compute.wait)).getD 1
        Token.now ≠
      ((runEvents ctx0 initialState evs2).2.map (fun r => r.render.token)).getD 0
        Token.now ∧
    (runEvents ctx0 initialState evs2).2.length = 2 := by decide

/-- C1, amended: every frame's compute dispatch is submitted with a fresh
now-token as its wait dependency (the previous frame's render token having
been dropped unused), while that frame's render submission does wait on the
compute token, joined with the acquisition token; so the token chain is
linear within a frame but does not extend across frames. -/
theorem C1_amended (ctx : Context) (s : LoopState) (c : FrameRecord)
    (h : (frameStep ctx s).2 = some c) :
    c.compute.wait = Token.now ∧
    c.render.wait = Token.join (Token.acq c.render.image_index) c.compute.token := by
  rw [frameStep_eq] at h
  cases h
  exact ⟨rfl, rfl⟩

theorem C1_amended_witness :
    (frameRecordOf ctx0 initialState).compute.wait = Token.now ∧
    (frameRecordOf ctx0 initialState).render.wait =
      Token.join (Token.acq (frameRecordOf ctx0 initialState).render.image_index)
        (frameRecordOf ctx0 initialState).compute.token :=
  C1_amended ctx0 initialState (frameRecordOf ctx0 initialState) rfl

/-- C2, counterexample: on the spec's example input — family A
{graphics, no compute, presentable, 1 queue} and family B {no graphics,
compute, 2 queues} — `QueueFamilies::find` selects A as the compute family
(it unconditionally sets `compute_family = graphics_family`), not B as the
claim states. -/
theorem C2_counterexample :
    QueueFamilies.find [famA, famB] surfAB =
      .ok { graphics := famA, compute := famA } ∧ famA ≠ famB := ⟨rfl, by decide⟩

/-- C2, amended: the compute family is always the selected graphics family,
regardless of compute support or queue counts; selection fails with
`NoQueueFamilyFound` exactly when no family both supports graphics and has a
successful presentation-support query; on the A/B example the result is
graphics = A, compute = A. -/
theorem C2_amended (fams : List QueueFamily) (surf : Surface) :
    (∀ r, QueueFamilies.find fams surf = .ok r → r.compute = r.graphics) ∧
    (QueueFamilies.find fams surf = .error .NoQueueFamilyFound ↔
      ∀ f ∈ fams, ¬(f.supports_graphics = true ∧
        (surf.is_supported f.id).isSome = true)) ∧
    QueueFamilies.find [famA, famB] surfAB =
      .ok { graphics := famA, compute := famA } := by
  refine ⟨?_, ?_, rfl⟩
  · intro r h
    unfold QueueFamilies.find at h
    cases hf : fams.find?
        (fun qf => qf.supports_graphics && (surf.is_supported qf.id).isSome) with
    | none => rw [hf] at h; cases h
    | some gf => rw [hf] at h; cases h; rfl
  · unfold QueueFamilies.find
    cases hf : fams.find?
        (fun qf => qf.supports_graphics && (surf.is_supported qf.id).isSome) with
    | none =>
      simp only [List.find?_eq_none, Bool.and_eq_true] at hf
      simpa using hf
    | some gf =>
      have hmem := List.mem_of_find?_eq_some hf
      have hp := List.find?_some hf
      rw [Bool.and_eq_true] at hp
      constructor
      · intro h; cases h
      · intro hall
        exact absurd ⟨hp.1, hp.2⟩ (hall gf hmem)

theorem C2_amended_witness :
    QueueFamilies.find [famA, famB] surfAB =
      .ok { graphics := famA, compute := famA } :=
  (C2_amended [famA, famB] surfAB).2.2

/-- C3, code bug: `QueueFamilies::find` tests
`surface.is_supported(*qf).is_ok()`, i.e. only that the presentation-support
query succeeded, discarding the boolean answer.  On a device whose only
graphics family cannot present (the query succeeds and answers `false`),
selection nevertheless returns that family instead of failing with
`NoQueueFamilyFound` as the spec requires. -/
theorem C3_code_bug :
    surfNoPresent.is_supported famG.id = some false ∧
    QueueFamilies.find [famG] surfNoPresent =
      .ok { graphics := famG, compute := famG } := ⟨rfl, rfl⟩

/-- C4, counterexample: for a 128×128 domain with 8×8 local groups the
scheduler supplies group counts `[128/8+1, 128/8+1, 1] = [17,17,1]`, not the
ceiling division `[16,16,1]` the claim states. -/
theorem C4_counterexample :
    (frameStep ctx0 initialState).2.map (fun r => r.compute.dims) =
      some (17, 17, 1) ∧
    ((17, 17, 1) : Nat × Nat × Nat) ≠ (16, 16, 1) := by decide

/-- C4, amended: the supplied group counts are `floor(d/8) + 1` per axis —
one more than needed when 8 divides the domain — so both a 128×128 and a
130×130 domain yield `[17,17,1]`; the counts still cover the domain
(`8 * (d/8 + 1) ≥ d`). -/
theorem C4_amended (ctx : Context) (s : LoopState) (c : FrameRecord)
    (h : (frameStep ctx s).2 = some c) :
    c.compute.dims = (ctx.width / 8 + 1, ctx.height / 8 + 1, 1) ∧
    ctx.width ≤ 8 * (ctx.width / 8 + 1) ∧
    ctx.height ≤ 8 * (ctx.height / 8 + 1) ∧
    (frameStep ctx0 s).2.map (fun r => r.compute.dims) = some (17, 17, 1) ∧
    (frameStep ctx130 s).2.map (fun r => r.compute.dims) = some (17, 17, 1) := by
  rw [frameStep_eq] at h
  cases h
  refine ⟨rfl, ?_, ?_, rfl, rfl⟩
  · have := Nat.div_add_mod ctx.width 8
    have := Nat.mod_lt ctx.width (show 0 < 8 by decide)
    omega
  · have := Nat.div_add_mod ctx.height 8
    have := Nat.mod_lt ctx.height (show 0 < 8 by decide)
    omega

theorem C4_amended_witness :
    (frameRecordOf ctx130 initialState).compute.dims = (17, 17, 1) :=
  (C4_amended ctx130 initialState (frameRecordOf ctx130 initialState) rfl).1

/-- C5: each frame swaps the `input`/`output` role tags exactly once
(`input(n+1) = output(n)` and `output(n+1) = input(n)`); two frames restore
the original assignment; no event other than `RedrawRequested` touches the
tags; every event either keeps or swaps the pair, so with the two images
distinct, exactly one is tagged `input` and the other `output` at all
times. -/
theorem C5 :
    (∀ (ctx : Context) (s : LoopState),
       (frameStep ctx s).1.input_view = s.output_view ∧
       (frameStep ctx s).1.output_view = s.input_view) ∧
    (∀ (ctx : Context) (s : LoopState),
       (frameStep ctx (frameStep ctx s).1).1.input_view = s.input_view ∧
       (frameStep ctx (frameStep ctx s).1).1.output_view = s.output_view) ∧
    (∀ (ctx : Context) (s : LoopState) (e : Event), e ≠ Event.RedrawRequested →
       (handleEvent ctx s e).1.input_view = s.input_view ∧
       (handleEvent ctx s e).1.output_view = s.output_view) ∧
    (∀ (ctx : Context) (s : LoopState) (e : Event),
       ((handleEvent ctx s e).1.input_view = s.input_view ∧
         (handleEvent ctx s e).1.output_view = s.output_view) ∨
       ((handleEvent ctx s e).1.input_view = s.output_view ∧
         (handleEvent ctx s e).1.output_view = s.input_view)) ∧
    (∀ (ctx : Context) (s : LoopState) (e : Event),
       s.input_view ≠ s.output_view →
       (handleEvent ctx s e).1.input_view ≠ (handleEvent ctx s e).1.output_view) := by
  refine ⟨fun ctx s => ⟨rfl, rfl⟩, fun ctx s => ⟨rfl, rfl⟩,
    fun ctx s e he => handleEvent_views_of_ne ctx s e he,
    fun ctx s e => handleEvent_views ctx s e, fun ctx s e hne => ?_⟩
  rcases handleEvent_views ctx s e with ⟨hi, ho⟩ | ⟨hi, ho⟩
  · rw [hi, ho]; exact hne
  · rw [hi, ho]; exact hne.symm

theorem C5_witness :
    (handleEvent ctx0 initialState Event.CloseRequested).1.input_view =
        initialState.input_view ∧
      (handleEvent ctx0 initialState Event.CloseRequested).1.input_view ≠
        (handleEvent ctx0 initialState Event.CloseRequested).1.output_view :=
  ⟨(C5.2.2.1 ctx0 initialState Event.CloseRequested (by decide)).1,
   C5.2.2.2.2 ctx0 initialState Event.CloseRequested (by decide)⟩

/-- C6, counterexample: a swapchain-acquisition failure in `Renderer::draw`
is not reported through the operation's error result — the source calls
`acquire_next_image(..).unwrap()`, so in an environment where only
acquisition fails the call panics; likewise a fence-flush failure is
unwrapped.  Neither failure reaches the caller as an `Err` cause. -/
theorem C6_counterexample :
    Renderer.draw ⟨ctx0⟩ { happyDrawEnv with acquire := none } [0] Token.now
        (RenderPushConstants.mk 1) = .panicked ∧
    Renderer.draw ⟨ctx0⟩ { happyDrawEnv with flush := false } [0] Token.now
        (RenderPushConstants.mk 1) = .panicked := ⟨rfl, rfl⟩

/-- C6, amended: each failure that the source propagates with `?` is
reported to the caller as its own distinct cause — for draw: framebuffer
add/build, command-buffer allocation (out-of-memory), sampled-image
descriptor add, descriptor-set build, render-pass begin, draw recording,
command-buffer build, and execution; for compute: missing image-descriptor
slot, descriptor-set build, allocation, dispatch recording, command-buffer
build, and execution.  But swapchain acquisition and fence-flush failures in
draw panic via `.unwrap()` instead of being returned, and the compute stage
discards the per-image descriptor `add_image` result (the call still
succeeds, with the failed adds silently missing from the set). -/
theorem C6_amended :
    Renderer.draw ⟨ctx0⟩ { happyDrawEnv with framebuffer_add := false }
        [0] Token.now () = .err .FramebufferCreationError ∧
    Renderer.draw ⟨ctx0⟩ { happyDrawEnv with framebuffer_build := false }
        [0] Token.now () = .err .FramebufferCreationError ∧
    Renderer.draw ⟨ctx0⟩ { happyDrawEnv with cb_alloc := false }
        [0] Token.now () = .err .OomError ∧
    Renderer.draw ⟨ctx0⟩
        { happyDrawEnv with add_sampled_image := fun _ => false }
        [0] Token.now () = .err .DescriptorSetError ∧
    Renderer.draw ⟨ctx0⟩ { happyDrawEnv with ds_build := false }
        [0] Token.now () = .err .DescriptorSetError ∧
    Renderer.draw ⟨ctx0⟩ { happyDrawEnv with begin_render_pass := false }
        [0] Token.now () = .err .BeginRenderPassError ∧
    Renderer.draw ⟨ctx0⟩ { happyDrawEnv with draw_cmd := false }
        [0] Token.now () = .err .DrawError ∧
    Renderer.draw ⟨ctx0⟩ { happyDrawEnv with cb_build := false }
        [0] Token.now () = .err .BuildError ∧
    Renderer.draw ⟨ctx0⟩ { happyDrawEnv with then_execute := false }
        [0] Token.now () = .err .CommandBufferExecError ∧
    Renderer.draw ⟨ctx0⟩ { happyDrawEnv with acquire := none }
        [0] Token.now () = .panicked ∧
    Renderer.draw ⟨ctx0⟩ { happyDrawEnv with flush := false }
        [0] Token.now () = .panicked ∧
    ComputeProgram.compute ⟨ctx0⟩
        { happyComputeEnv with has_layout0 := false } [0] (1, 1, 1) () Token.now =
      .err .NoImageDescriptor ∧
    ComputeProgram.compute ⟨ctx0⟩
        { happyComputeEnv with ds_build := false } [0] (1, 1, 1) () Token.now =
      .err .DescriptorSetError ∧
    ComputeProgram.compute ⟨ctx0⟩
        { happyComputeEnv with cb_alloc := false } [0] (1, 1, 1) () Token.now =
      .err .OomError ∧
    ComputeProgram.compute ⟨ctx0⟩
        { happyComputeEnv with dispatch_cmd := false } [0] (1, 1, 1) () Token.now =
      .err .DispatchError ∧
    ComputeProgram.compute ⟨ctx0⟩
        { happyComputeEnv with cb_build := false } [0] (1, 1, 1) () Token.now =
      .err .BuildError ∧
    ComputeProgram.compute ⟨ctx0⟩
        { happyComputeEnv with then_execute := false } [0] (1, 1, 1) () Token.now =
      .err .CommandBufferExecError ∧
    ComputeProgram.compute ⟨ctx0⟩
        { happyComputeEnv with add_image := fun _ => false } [0] (1, 1, 1) ()
        Token.now =
      .ok { entries := [], dims := (1, 1, 1), queue := 0, wait := Token.now,
            token := Token.exec 0 Token.now, push_constants := () } := by
  exact ⟨rfl, rfl, rfl, rfl, rfl, rfl, rfl, rfl, rfl, rfl, rfl, rfl, rfl, rfl,
    rfl, rfl, rfl, rfl⟩

/-- C7: in any run without a reset (`R`) key event, the init flag of the
compute parameter blob is 1 on the first frame's dispatch and 0 on every
later frame's dispatch. -/
theorem C7 (ctx : Context) (evs : List Event) (h : noReset evs) :
    ((runEvents ctx initialState evs).2.map
        (fun r => r.compute.push_constants.init)).getD 0 1 = 1 ∧
    ∀ i, 1 ≤ i →
      ((runEvents ctx initialState evs).2.map
        (fun r => r.compute.push_constants.init)).getD i 0 = 0 :=
  ⟨records_init_head ctx evs initialState h,
   records_init_tail ctx evs initialState h⟩

theorem C7_witness :
    ((runEvents ctx0 initialState evs3).2.map
        (fun r => r.compute.push_constants.init)).getD 0 1 = 1 ∧
    ((runEvents ctx0 initialState evs3).2.map
        (fun r => r.compute.push_constants.init)).getD 1 0 = 0 ∧
    ((runEvents ctx0 initialState evs3).2.map
        (fun r => r.compute.push_constants.init)).getD 2 0 = 0 :=
  ⟨(C7 ctx0 evs3 ⟨by decide, by decide⟩).1,
   (C7 ctx0 evs3 ⟨by decide, by decide⟩).2 1 (by decide),
   (C7 ctx0 evs3 ⟨by decide, by decide⟩).2 2 (by decide)⟩

/-- C8, counterexample: over three frames the ping-pong tags are
(input, output) = (0,1), (1,0), (0,1) — the image tagged `input` on frame 3
is image 0, while the image tagged `output` on frame 1 is image 1; they
differ, contradicting the claim. -/
theorem C8_counterexample :
    ((runEvents ctx0 initialState evs3).2.map
        (fun r => (r.inputUsed, r.outputUsed))) = [(0, 1), (1, 0), (0, 1)] ∧
    ((runEvents ctx0 initialState evs3).2.map (fun r => r.inputUsed)).getD 2 99 ≠
      ((runEvents ctx0 initialState evs3).2.map (fun r => r.outputUsed)).getD 0 99 := by
  decide

/-- C8, amended: the role tags have period two, so after three frames the
image tagged `input` on frame 3 equals the image tagged `input` on frame 1
(equivalently, the image tagged `output` on frame 2). -/
theorem C8_amended :
    ((runEvents ctx0 initialState evs3).2.map (fun r => r.inputUsed)).getD 2 99 =
      ((runEvents ctx0 initialState evs3).2.map (fun r => r.inputUsed)).getD 0 99 ∧
    ((runEvents ctx0 initialState evs3).2.map (fun r => r.inputUsed)).getD 2 99 =
      ((runEvents ctx0 initialState evs3).2.map (fun r => r.outputUsed)).getD 1 99 := by
  decide

theorem computeAdds_sublist (f : Nat → Bool) :
    ∀ (n : Nat) (l : List Nat), (computeAdds f n l).Sublist l := by
  intro n l
  induction l generalizing n with
  | nil => exact List.Sublist.refl []
  | cons a t ih =>
    rw [computeAdds]
    by_cases hf : f n = true
    · rw [if_pos hf]
      exact (ih (n + 1)).cons₂ a
    · rw [if_neg hf]
      exact (ih (n + 1)).cons a

/-- C9, counterexample: a compute dispatch supplying one image, in an
environment where the (result-discarded) `add_image` call fails, still
succeeds — and its built descriptor binding has zero entries, not the one
entry the claim requires for every call. -/
theorem C9_counterexample :
    ComputeProgram.compute ⟨ctx0⟩
        { happyComputeEnv with add_image := fun _ => false } [7] (4, 4, 1) ()
        Token.now =
      .ok { entries := [], dims := (4, 4, 1), queue := 0, wait := Token.now,
            token := Token.exec 0 Token.now, push_constants := () } ∧
    ([] : List Nat).length ≠ [7].length := ⟨rfl, by decide⟩

/-- C9, amended: a successful draw call's descriptor binding holds exactly
the k supplied images in the supplied order (a failed sampled-image add
aborts the call).  For compute — whose per-image `add_image` results are
discarded — a successful call's binding holds the supplied images whose
adds succeeded, in the supplied order (an order-preserving subsequence of
the supplied sequence); it has exactly k entries whenever all the adds
succeed, but a call with failing adds can succeed with fewer than k
entries. -/
theorem C9_amended :
    (∀ (Pc : Type) (r : Renderer) (env : DrawEnv) (images : List Nat)
        (before : Token) (pc : Pc) (out : DrawRecord Pc),
        Renderer.draw r env images before pc = .ok out →
        out.entries = images) ∧
    (∀ (Pc : Type) (p : ComputeProgram) (env : ComputeEnv) (images : List Nat)
        (dims : Nat × Nat × Nat) (pc : Pc) (before : Token)
        (out : ComputeRecord Pc),
        (∀ i, env.add_image i = true) →
        ComputeProgram.compute p env images dims pc before = .ok out →
        out.entries = images) ∧
    (∀ (Pc : Type) (p : ComputeProgram) (env : ComputeEnv) (images : List Nat)
        (dims : Nat × Nat × Nat) (pc : Pc) (before : Token)
        (out : ComputeRecord Pc),
        ComputeProgram.compute p env images dims pc before = .ok out →
        out.entries.Sublist images) := by
  refine ⟨?_, ?_, ?_⟩
  · intro Pc r env images before pc out h
    unfold Renderer.draw at h
    split at h
    · cases h
    · split_ifs at h <;> try cases h
      all_goals (split at h <;> try cases h)
      exact drawAdds_ok env.add_sampled_image 0 images _ (by assumption)
  · intro Pc p env images dims pc before out hadd h
    unfold ComputeProgram.compute at h
    split_ifs at h
    all_goals cases h
    exact computeAdds_all_true env.add_image hadd 0 images
  · intro Pc p env images dims pc before out h
    unfold ComputeProgram.compute at h
    split_ifs at h
    all_goals cases h
    exact computeAdds_sublist env.add_image 0 images

theorem C9_amended_witness :
    ({ image_index := 0, entries := [5], exec_queue := 0, present_queue := 0,
        wait := Token.join (Token.acq 0) Token.now,
        token := Token.fence (Token.present 0 0
          (Token.exec 0 (Token.join (Token.acq 0) Token.now))),
        push_constants := () } : DrawRecord Unit).entries = [5] ∧
    ({ entries := [3, 4], dims := (2, 2, 1), queue := 0, wait := Token.now,
        token := Token.exec 0 Token.now,
        push_constants := () } : ComputeRecord Unit).entries = [3, 4] ∧
    List.Sublist ([] : List Nat) [9] :=
  ⟨C9_amended.1 Unit ⟨ctx0⟩ happyDrawEnv [5] Token.now () _ rfl,
   C9_amended.2.1 Unit ⟨ctx0⟩ happyComputeEnv [3, 4] (2, 2, 1) () Token.now _
      (fun _ => rfl) rfl,
   C9_amended.2.2 Unit ⟨ctx0⟩ { happyComputeEnv with add_image := fun _ => false }
      [9] (1, 1, 1) () Token.now _ rfl⟩

/-- C10: queue-family selection requests exactly one `(family, priority)`
pair, the device hands back exactly one queue object, the context takes that
single queue, and every successful compute dispatch, graphics draw and
presentation request is submitted to the context's queue — the graphics and
compute queues being the same object. -/
theorem C10 :
    (∀ qf : QueueFamilies, (QueueFamilies.as_vec qf).length = 1) ∧
    (∀ qf : QueueFamilies,
       Device.new_queues qf.as_vec = [0] ∧ Context.queue_of qf = some 0) ∧
    (∀ (Pc : Type) (p : ComputeProgram) (env : ComputeEnv) (images : List Nat)
        (dims : Nat × Nat × Nat) (pc : Pc) (before : Token)
        (out : ComputeRecord Pc),
        ComputeProgram.compute p env images dims pc before = .ok out →
        out.queue = p.context.queue) ∧
    (∀ (Pc : Type) (r : Renderer) (env : DrawEnv) (images : List Nat)
        (before : Token) (pc : Pc) (out : DrawRecord Pc),
        Renderer.draw r env images before pc = .ok out →
        out.exec_queue = r.context.queue ∧ out.present_queue = r.context.queue) ∧
    (∀ (ctx : Context) (s : LoopState) (c : FrameRecord),
        (frameStep ctx s).2 = some c →
        c.compute.queue = ctx.queue ∧ c.render.exec_queue = ctx.queue ∧
          c.render.present_queue = ctx.queue) := by
  refine ⟨fun qf => rfl, fun qf => ⟨rfl, rfl⟩, ?_, ?_, ?_⟩
  · intro Pc p env images dims pc before out h
    unfold ComputeProgram.compute at h
    split_ifs at h
    all_goals cases h
    rfl
  · intro Pc r env images before pc out h
    unfold Renderer.draw at h
    split at h
    · cases h
    · split_ifs at h <;> try cases h
      all_goals (split at h <;> try cases h)
      exact ⟨rfl, rfl⟩
  · intro ctx s c h
    rw [frameStep_eq] at h
    cases h
    exact ⟨rfl, rfl, rfl⟩

theorem C10_witness :
    (QueueFamilies.as_vec { graphics := famA, compute := famA }).length = 1 ∧
    Context.queue_of { graphics := famA, compute := famA } = some 0 ∧
    (frameRecordOf ctx0 initialState).compute.queue = ctx0.queue ∧
    (frameRecordOf ctx0 initialState).render.present_queue = ctx0.queue :=
  ⟨C10.1 { graphics := famA, compute := famA },
   (C10.2.1 { graphics := famA, compute := famA }).2,
   (C10.2.2.2.2 ctx0 initialState (frameRecordOf ctx0 initialState) rfl).1,
   (C10.2.2.2.2 ctx0 initialState (frameRecordOf ctx0 initialState) rfl).2.2⟩

end Magma
